import Mathlib

/-!
# Inventory REST service — shallow embedding

A shallow embedding of the inventory-management service
(`service/models.py` and `service/routes.py`): the `Inventory` record,
its `serialize`/`deserialize` routines, the persistence-layer operations
(`create`/`update`/`delete` with explicit commit success/failure and
rollback), the query predicates, and the five route handlers
(list, create, read is trivial, update, delete, restock action).

Modelling conventions:
- The persisted database table is a `Store := List Inventory`; primary-key
  lookup is `findById`.  SQLAlchemy commit is modelled by an explicit
  `commitOk : Bool` argument: `commitOk = true` means the commit succeeds,
  `commitOk = false` means it raises, in which case the model performs the
  rollback (the store is returned unchanged), mirroring the
  `try/commit/except/rollback/raise DataValidationError` blocks of
  `models.py`.
- JSON payload values are modelled well-typed where the code only ever
  compares or stores them (`name` a string, `product_id` an integer, ...);
  in Python an ill-typed value raises `TypeError`/`AttributeError` inside
  `deserialize`, which the same `except` clause converts to the same
  `DataValidationError("Invalid inventory data")` as a missing key, so a
  missing field (`Option.none`) stands for both in the model.
- The restock action's `quantity` payload value is kept untyped
  (`JVal`), because `_process_quantity_update` runs Python's `int()`
  coercion on it; `pyInt` models that coercion.
- Transport-level concerns (Content-Type checks, JSON parsing of the
  request body, Swagger marshalling) are outside the embedding: every
  modelled request is a well-formed JSON request.
-/

/-- `DataValidationError` of `service/models.py`. -/
structure DataValidationError where
  msg : String
deriving DecidableEq, Repr

/-- The `Inventory` row of `service/models.py` (table schema lines 28-33).
`id` is `Option Int` because the column is `None` before the first save. -/
structure Inventory where
  id : Option Int
  name : String
  product_id : Int
  quantity : Int
  condition : String
  restock_level : Int
deriving DecidableEq, Repr

/-- A freshly constructed `Inventory()` ORM object before `deserialize`
fills it in; only `id := none` is ever observable, because `deserialize`
assigns every other field before it is read. -/
def Inventory.new : Inventory :=
  { id := none, name := "", product_id := 0, quantity := 0
    condition := "", restock_level := 0 }

/-- The serialized dictionary shape produced by `Inventory.serialize`:
always exactly the six fields, with `id` possibly `null`. -/
structure InvDict where
  id : Option Int
  name : String
  product_id : Int
  quantity : Int
  condition : String
  restock_level : Int
deriving DecidableEq, Repr

/-- An untrusted input dictionary as read by `Inventory.deserialize`:
each field is `some v` when the key is present with a well-typed value,
`none` when absent (or present with a value whose use raises
`TypeError`/`AttributeError`, which the code folds into the same error).
`deserialize` never reads an `id` key, so the type has none. -/
structure InvPayload where
  name : Option String := none
  product_id : Option Int := none
  quantity : Option Int := none
  condition : Option String := none
  restock_level : Option Int := none
deriving DecidableEq, Repr

/-- `Inventory.serialize` (models.py lines 75-84). -/
def Inventory.serialize (self : Inventory) : InvDict :=
  { id := self.id
    name := self.name
    product_id := self.product_id
    quantity := self.quantity
    condition := self.condition
    restock_level := self.restock_level }

/-- The `valid_conditions` list of models.py line 111. -/
def validConditions : List String := ["New", "Opened", "Used", "Refurbished"]

/-- `Inventory.deserialize` (models.py lines 86-116), checks in source
order: required keys `name`/`product_id`/`condition` (a missing one raises
`KeyError`, converted to `DataValidationError("Invalid inventory data")`),
then the 63-character name cap, then non-negativity of `quantity`
(default 0) and `restock_level` (default 10), then membership of
`condition` in the fixed enumeration.  The Python method mutates `self`
field by field before a check can fail, but an error result is never
committed by any caller, so the model returns the fully validated record
or the error.  `self.id` is untouched. -/
def Inventory.deserialize (self : Inventory) (data : InvPayload) :
    Except DataValidationError Inventory :=
  match data.name, data.product_id, data.condition with
  | some nm, some pid, some cond =>
    if nm.length > 63 then
      .error ⟨"Name exceeds 63-character limit"⟩
    else if data.quantity.getD 0 < 0 then
      .error ⟨"Quantity cannot be negative"⟩
    else if data.restock_level.getD 10 < 0 then
      .error ⟨"Restock level cannot be negative"⟩
    else if cond ∉ validConditions then
      .error ⟨s!"Invalid condition: {cond}"⟩
    else
      .ok { self with name := nm, product_id := pid
                      quantity := data.quantity.getD 0
                      condition := cond
                      restock_level := data.restock_level.getD 10 }
  | _, _, _ => .error ⟨"Invalid inventory data"⟩

/-! ## Persistence layer -/

/-- The database table contents. -/
abbrev Store := List Inventory

/-- `Inventory.find` (models.py lines 128-132): primary-key lookup. -/
def findById : Store → Int → Option Inventory
  | [], _ => none
  | j :: rest, iid => if j.id = some iid then some j else findById rest iid

/-- The id the persistence layer assigns on insert: one more than the
largest id in the table (surrogate autoincrement key). -/
def nextId (s : Store) : Int :=
  (List.foldl (fun acc j => max acc (j.id.getD 0)) 0 s) + 1

/-- `Inventory.create` (models.py lines 38-50): unset `id`, insert, and
commit; a failed commit rolls back and raises `DataValidationError`. -/
def Inventory.create (s : Store) (item : Inventory) (commitOk : Bool) :
    Except DataValidationError (Store × Inventory) :=
  let saved := { item with id := some (nextId s) }
  if commitOk then .ok (s ++ [saved], saved)
  else .error ⟨"Error creating record"⟩

/-- Commit of an in-session mutation: every row with the object's primary
key takes the mutated value. -/
def replaceById (s : Store) (item : Inventory) : Store :=
  s.map fun j => if j.id = item.id then item else j

/-- `Inventory.update` (models.py lines 52-62): commit the mutated object;
a failed commit rolls back and raises `DataValidationError`. -/
def Inventory.update (s : Store) (item : Inventory) (commitOk : Bool) :
    Except DataValidationError Store :=
  if commitOk then .ok (replaceById s item)
  else .error ⟨"Error updating record"⟩

/-- `Inventory.delete` (models.py lines 64-73): delete the row and commit;
a failed commit rolls back and raises `DataValidationError`. -/
def Inventory.delete (s : Store) (item : Inventory) (commitOk : Bool) :
    Except DataValidationError Store :=
  if commitOk then .ok (s.filter fun j => !decide (j.id = item.id))
  else .error ⟨"Error deleting record"⟩

/-! ## Query predicates (models.py lines 122-164) -/

/-- `Inventory.all`. -/
def Inventory.all (s : Store) : List Inventory := s

/-- `Inventory.find_by_name`: exact, case-sensitive match. -/
def find_by_name (s : Store) (nm : String) : List Inventory :=
  s.filter fun j => decide (j.name = nm)

/-- `Inventory.find_by_product_id`: exact match. -/
def find_by_product_id (s : Store) (pid : Int) : List Inventory :=
  s.filter fun j => decide (j.product_id = pid)

/-- `Inventory.find_by_condition`: exact match. -/
def find_by_condition (s : Store) (c : String) : List Inventory :=
  s.filter fun j => decide (j.condition = c)

/-- `Inventory.find_below_restock_level`: `quantity < restock_level`. -/
def find_below_restock_level (s : Store) : List Inventory :=
  s.filter fun j => decide (j.quantity < j.restock_level)

/-! ## JSON values and Python `int()` coercion -/

/-- A JSON value as decoded by Flask's `request.get_json()`.  `jnum`
carries an exact rational, covering every JSON decimal literal; arrays
and objects are collapsed into `jcomposite` because `int()` treats them
all alike (`TypeError`). -/
inductive JVal where
  | jnull
  | jbool (b : Bool)
  | jint (n : Int)
  | jnum (q : Rat)
  | jstr (s : String)
  | jcomposite
deriving DecidableEq, Repr

/-- Truncation toward zero of an exact rational, as Python `int(float)`
performs (`int(5.9) = 5`, `int(-5.9) = -5`).  `Int.tdiv` is T-division. -/
def ratTrunc (q : Rat) : Int := Int.tdiv q.num (q.den : Int)

/-- Leading and trailing whitespace removal, as Python `str.strip()`. -/
def stripChars (l : List Char) : List Char :=
  ((l.dropWhile Char.isWhitespace).reverse.dropWhile Char.isWhitespace).reverse

/-- Value of a run of decimal digit characters. -/
def digitsVal (l : List Char) : Nat :=
  l.foldl (fun acc c => acc * 10 + (c.toNat - 48)) 0

/-- Python `int(str)` on the characters of a decoded JSON string:
surrounding whitespace is stripped, an optional single `+`/`-` sign
precedes a non-empty digit run; anything else raises `ValueError`.
(CPython additionally allows single underscores between digits; payloads
with such separators are outside this model and never claimed.) -/
def parseIntChars (l : List Char) : Option Int :=
  let t := stripChars l
  let (sign, ds) : Int × List Char :=
    match t with
    | '-' :: rest => (-1, rest)
    | '+' :: rest => (1, rest)
    | _ => (1, t)
  if ds ≠ [] ∧ ds.all Char.isDigit then some (sign * (digitsVal ds : Int))
  else none

/-- Python `int(str)` on a decoded JSON string. -/
def parseIntString (s : String) : Option Int := parseIntChars s.data

/-- Python's `int()` builtin applied to a decoded JSON value, returning
`none` exactly when `int()` raises one of the `ValueError`/`TypeError`
pair that `_process_quantity_update` catches: booleans coerce to 0/1
(bool is an int subtype), floats truncate toward zero, strings parse as
optionally signed decimal integers, and `null`/arrays/objects raise
`TypeError`. -/
def pyInt : JVal → Option Int
  | .jnull => none
  | .jbool b => some (if b then 1 else 0)
  | .jint n => some n
  | .jnum q => some (ratTrunc q)
  | .jstr s => parseIntString s
  | .jcomposite => none

/-! ## Route handlers (routes.py) -/

/-- The JSON body of a restock response together with its HTTP status
code; `new_stock` is present only on a successful quantity update. -/
structure RestockResponse where
  statusCode : Nat
  message : String
  new_stock : Option Int
deriving DecidableEq, Repr

/-- `RestockResource._process_quantity_update` (routes.py lines 486-511):
coerce the payload's `quantity` with `int()` (400 on failure), add it to
the item's quantity, and commit; a commit failure is reported as 500 with
the store rolled back. -/
def processQuantityUpdate (s : Store) (item : Inventory) (v : JVal)
    (commitOk : Bool) : RestockResponse × Store :=
  match pyInt v with
  | none => (⟨400, "Quantity must be an integer", none⟩, s)
  | some n =>
    let item' := { item with quantity := item.quantity + n }
    match Inventory.update s item' commitOk with
    | .error e => (⟨500, e.msg, none⟩, s)
    | .ok s' => (⟨200, "Stock level updated", some item'.quantity⟩, s')

/-- `RestockResource._check_restock_status` (routes.py lines 513-522):
pure report, no mutation. -/
def checkRestockStatus (item : Inventory) : RestockResponse :=
  if item.quantity < item.restock_level then
    ⟨200, "Restock alert triggered", none⟩
  else
    ⟨200, "Stock level is above the restock threshold. No action needed.", none⟩

/-- `RestockResource.post` (routes.py lines 425-453).  `body` is the
value of the `"quantity"` key of the JSON object posted, `none` when the
key is absent (`"quantity" in data` is false). -/
def restockPost (s : Store) (iid : Int) (body : Option JVal)
    (commitOk : Bool) : RestockResponse × Store :=
  match findById s iid with
  | none => (⟨404, "Inventory item not found", none⟩, s)
  | some item =>
    match body with
    | some v => processQuantityUpdate s item v commitOk
    | none => (checkRestockStatus item, s)

/-- `InventoryResource.put` (routes.py lines 224-272): 404 when the id is
unknown, otherwise merge the payload over the stored item's current
fields (absent keys retain prior values), re-validate the merged dict
with `deserialize`, and commit; both a validation failure and a commit
failure surface as `BadRequest` 400 from the same `try` block, leaving
the store unchanged.  `mergedPayload` is the `updated_data` dict built at
routes.py lines 259-265: every key present, absent payload keys replaced
by the stored item's current values. -/
def mergedPayload (item : Inventory) (data : InvPayload) : InvPayload :=
  { name := some (data.name.getD item.name)
    product_id := some (data.product_id.getD item.product_id)
    quantity := some (data.quantity.getD item.quantity)
    condition := some (data.condition.getD item.condition)
    restock_level := some (data.restock_level.getD item.restock_level) }

/-- The `InventoryResource.put` handler body (see `mergedPayload`). -/
def putRoute (s : Store) (iid : Int) (data : InvPayload) (commitOk : Bool) :
    Nat × Store :=
  match findById s iid with
  | none => (404, s)
  | some item =>
    match item.deserialize (mergedPayload item data) with
    | .error _ => (400, s)
    | .ok item' =>
      match Inventory.update s item' commitOk with
      | .error _ => (400, s)
      | .ok s' => (200, s')

/-- `InventoryCollection.post` (routes.py lines 364-403): validate the
payload into a fresh `Inventory()` and persist it; a validation failure
or a commit failure surfaces as `BadRequest` 400 with the store
unchanged. -/
def createRoute (s : Store) (data : InvPayload) (commitOk : Bool) :
    Nat × Store × Option Inventory :=
  match Inventory.new.deserialize data with
  | .error _ => (400, s, none)
  | .ok item =>
    match Inventory.create s item commitOk with
    | .error _ => (400, s, none)
    | .ok (s', saved) => (201, s', some saved)

/-- `InventoryResource.delete` (routes.py lines 276-299): look the id up,
delete when found, and return 204 in every case — the handler's broad
`except` clause returns 204 even when the persistence layer raised, "for
idempotency". -/
def deleteRoute (s : Store) (iid : Int) (commitOk : Bool) : Nat × Store :=
  match findById s iid with
  | none => (204, s)
  | some item =>
    match Inventory.delete s item commitOk with
    | .error _ => (204, s)
    | .ok s' => (204, s')

/-- The query arguments of a list request after `reqparse` parsing
(routes.py lines 116-145): each is `some v` when supplied, `none` when
absent.  `reqparse` itself rejects non-integer `product_id`, non-boolean
`below_restock_level` and `condition` values outside its `choices`; such
requests never reach the handler body and are outside this model. -/
structure ListArgs where
  name : Option String := none
  product_id : Option Int := none
  condition : Option String := none
  below_restock_level : Option Bool := none
deriving DecidableEq, Repr

/-- Python truthiness of `args.get(...)` for an optional string:
`None` and `""` are falsy. -/
def truthyStr : Option String → Bool
  | none => false
  | some s => s ≠ ""

/-- Python truthiness for an optional int: `None` and `0` are falsy. -/
def truthyInt : Option Int → Bool
  | none => false
  | some n => n ≠ 0

/-- Python truthiness for an optional bool: `None` and `False` falsy. -/
def truthyBool : Option Bool → Bool
  | none => false
  | some b => b

/-- `InventoryCollection.get` (routes.py lines 318-356): reject any query
key outside the valid set with `BadRequest` before filtering
(`extraKeys` are the request's keys not in
`{name, product_id, condition, below_restock_level}`), then dispatch on
the first *truthy* filter in the fixed `if/elif` order
name, product_id, condition, below_restock_level, else `all()`. -/
def listRoute (s : Store) (args : ListArgs) (extraKeys : List String) :
    Except String (List Inventory) :=
  if extraKeys ≠ [] then
    .error ("Invalid query parameters: " ++ String.intercalate ", " extraKeys)
  else if truthyStr args.name then
    .ok (find_by_name s (args.name.getD ""))
  else if truthyInt args.product_id then
    .ok (find_by_product_id s (args.product_id.getD 0))
  else if truthyStr args.condition then
    .ok (find_by_condition s (args.condition.getD ""))
  else if truthyBool args.below_restock_level then
    .ok (find_below_restock_level s)
  else
    .ok (Inventory.all s)

/-! ## Invariants and helper lemmas -/

/-- The non-negativity invariant of spec §3 over a whole table. -/
def StoreInv (s : Store) : Prop :=
  ∀ j ∈ s, 0 ≤ j.quantity ∧ 0 ≤ j.restock_level

instance : DecidablePred StoreInv := fun s =>
  inferInstanceAs (Decidable (∀ j ∈ s, 0 ≤ j.quantity ∧ 0 ≤ j.restock_level))

/-- A concrete stored item used by witnesses and counterexamples. -/
def item0 : Inventory :=
  { id := some 1, name := "Widget", product_id := 7, quantity := 2
    condition := "New", restock_level := 10 }

theorem findById_id {s : Store} {iid : Int} {item : Inventory}
    (h : findById s iid = some item) : item.id = some iid := by
  induction s with
  | nil => simp [findById] at h
  | cons j rest ih =>
    by_cases hj : j.id = some iid
    · simp [findById, hj] at h
      rw [← h]
      exact hj
    · simp [findById, hj] at h
      exact ih h

theorem findById_replaceById {s : Store} {iid : Int} {item : Inventory}
    (h : findById s iid = some item) (newItem : Inventory)
    (hid : newItem.id = some iid) :
    findById (replaceById s newItem) iid = some newItem := by
  induction s with
  | nil => simp [findById] at h
  | cons j rest ih =>
    by_cases hj : j.id = some iid
    · simp only [replaceById, List.map, findById]
      rw [hj, ← hid]
      simp [findById]
    · simp only [findById, hj, if_false] at h
      simp only [replaceById, List.map, findById]
      have hj' : j.id ≠ newItem.id := by rw [hid]; exact hj
      simp only [if_neg hj']
      rw [if_neg hj]
      exact ih h

theorem findById_filter_id (s : Store) (iid : Int) :
    findById (s.filter fun j => !decide (j.id = some iid)) iid = none := by
  induction s with
  | nil => simp [findById]
  | cons j rest ih =>
    rw [List.filter_cons]
    by_cases hj : j.id = some iid
    · rw [if_neg (by simpa using hj)]
      exact ih
    · rw [if_pos (by simpa using hj)]
      simpa [findById, hj] using ih

theorem mem_replaceById {s : Store} {item j : Inventory}
    (h : j ∈ replaceById s item) : j ∈ s ∨ j = item := by
  rcases List.mem_map.mp h with ⟨a, ha, hval⟩
  by_cases hid : a.id = item.id
  · right
    rw [← hval]
    simp [hid]
  · left
    rw [← hval]
    simpa [hid] using ha

theorem deserialize_ok_nonneg {self y : Inventory} {data : InvPayload}
    (h : self.deserialize data = .ok y) :
    0 ≤ y.quantity ∧ 0 ≤ y.restock_level := by
  unfold Inventory.deserialize at h
  split at h
  next nm pid cond hn hp hc =>
    split_ifs at h with h1 h2 h3 h4
    simp only [Except.ok.injEq] at h
    rw [← h]
    exact ⟨by simpa using h2, by simpa using h3⟩
  next => simp at h

/-! ## Claims -/

/-- C1: for every stored item with quantity `q` and every restock request
whose payload carries an integer quantity `n` (any integer, negative
included), the action succeeds (200), the persisted stock becomes exactly
`q + n`, and the response reports the new quantity. -/
theorem restock_additive (s : Store) (iid : Int) (item : Inventory) (n : Int)
    (h : findById s iid = some item) :
    (restockPost s iid (some (.jint n)) true).1
      = ⟨200, "Stock level updated", some (item.quantity + n)⟩ ∧
    findById (restockPost s iid (some (.jint n)) true).2 iid
      = some { item with quantity := item.quantity + n } := by
  have e : restockPost s iid (some (.jint n)) true
      = (⟨200, "Stock level updated", some (item.quantity + n)⟩,
          replaceById s { item with quantity := item.quantity + n }) := by
    simp [restockPost, h, processQuantityUpdate, pyInt, Inventory.update]
  rw [e]
  exact ⟨rfl, findById_replaceById h { item with quantity := item.quantity + n }
    (show ({ item with quantity := item.quantity + n } : Inventory).id = some iid
      from @findById_id s iid item h)⟩

/-- Witness for C1: restocking the concrete item `item0` (quantity 2) by
5 yields a 200 response reporting 7 and persists quantity 7. -/
theorem restock_additive_witness :
    (restockPost [item0] 1 (some (.jint 5)) true).1
      = ⟨200, "Stock level updated", some (item0.quantity + 5)⟩ ∧
    findById (restockPost [item0] 1 (some (.jint 5)) true).2 1
      = some { item0 with quantity := item0.quantity + 5 } :=
  restock_additive [item0] 1 item0 5 rfl

/-- C2 counterexample: the restock action is not covered by the
non-negativity invariant.  `item0` satisfies the invariant (quantity 2),
yet a restock request with quantity `-3` persists quantity `-1 < 0`. -/
theorem restock_negative_persisted_cex :
    StoreInv [item0] ∧
    findById (restockPost [item0] 1 (some (.jint (-3))) true).2 1
      = some { item0 with quantity := -1 } ∧
    ({ item0 with quantity := -1 } : Inventory).quantity < 0 := by
  refine ⟨by decide, rfl, by decide⟩

/-- C2 amended: the non-negativity invariant is preserved by the create,
update (PUT) and delete operations — every route that funnels through
`deserialize` or only removes rows — for every payload and every commit
outcome; the restock action is the exception (see the counterexample). -/
theorem crud_preserves_nonneg_invariant (s : Store) (hs : StoreInv s) :
    (∀ data ok, StoreInv (createRoute s data ok).2.1) ∧
    (∀ iid data ok, StoreInv (putRoute s iid data ok).2) ∧
    (∀ iid ok, StoreInv (deleteRoute s iid ok).2) := by
  refine ⟨?_, ?_, ?_⟩
  · intro data ok
    cases hd : Inventory.new.deserialize data with
    | error e =>
      simp only [createRoute, hd]
      exact hs
    | ok item =>
      cases ok with
      | false =>
        simp [createRoute, hd, Inventory.create]
        exact hs
      | true =>
        simp only [createRoute, hd, Inventory.create, if_true]
        intro j hj
        rcases List.mem_append.mp hj with hj' | hj'
        · exact hs j hj'
        · have hjv : j = { item with id := some (nextId s) } := by simpa using hj'
          have hnn := deserialize_ok_nonneg hd
          rw [hjv]
          exact hnn
  · intro iid data ok
    cases hf : findById s iid with
    | none =>
      simp only [putRoute, hf]
      exact hs
    | some item =>
      cases hd : item.deserialize (mergedPayload item data) with
      | error e =>
        simp only [putRoute, hf, hd]
        exact hs
      | ok item' =>
        cases ok with
        | false =>
          simp [putRoute, hf, hd, Inventory.update]
          exact hs
        | true =>
          simp only [putRoute, hf, hd, Inventory.update, if_true]
          intro j hj
          rcases mem_replaceById hj with hj' | hj'
          · exact hs j hj'
          · have hnn := deserialize_ok_nonneg hd
            rw [hj']
            exact hnn
  · intro iid ok
    cases hf : findById s iid with
    | none =>
      simp only [deleteRoute, hf]
      exact hs
    | some item =>
      cases ok with
      | false =>
        simp [deleteRoute, hf, Inventory.delete]
        exact hs
      | true =>
        simp only [deleteRoute, hf, Inventory.delete, if_true]
        intro j hj
        exact hs j (List.mem_of_mem_filter hj)

/-- Witness for the amended C2: on the concrete one-item store the
invariant holds and is preserved by a PUT that zeroes the quantity and by
a delete. -/
theorem crud_preserves_nonneg_invariant_witness :
    StoreInv [item0] ∧
    StoreInv (putRoute [item0] 1 { quantity := some 0 } true).2 ∧
    StoreInv (deleteRoute [item0] 1 true).2 :=
  have hs : StoreInv [item0] := by decide
  ⟨hs, (crud_preserves_nonneg_invariant [item0] hs).2.1 1 { quantity := some 0 } true,
    (crud_preserves_nonneg_invariant [item0] hs).2.2 1 true⟩

/-- C3: a restock request whose payload has no `quantity` key is
read-only: the store is returned unchanged whatever the commit outcome,
and the response is the below-threshold alert exactly when
`quantity < restock_level`, the no-action-needed message otherwise. -/
theorem restock_no_payload_readonly (s : Store) (iid : Int) (item : Inventory)
    (ok : Bool) (h : findById s iid = some item) :
    (restockPost s iid none ok).2 = s ∧
    (restockPost s iid none ok).1 =
      (if item.quantity < item.restock_level then
        ⟨200, "Restock alert triggered", none⟩
      else
        ⟨200, "Stock level is above the restock threshold. No action needed.",
          none⟩) := by
  have e : restockPost s iid none ok = (checkRestockStatus item, s) := by
    simp [restockPost, h]
  rw [e]
  exact ⟨rfl, rfl⟩

/-- Witness for C3: on `item0` (quantity 2 below restock level 10) the
no-payload restock returns the alert and leaves the store unchanged. -/
theorem restock_no_payload_readonly_witness :
    (restockPost [item0] 1 none true).2 = [item0] ∧
    (restockPost [item0] 1 none true).1 =
      (if item0.quantity < item0.restock_level then
        ⟨200, "Restock alert triggered", none⟩
      else
        ⟨200, "Stock level is above the restock threshold. No action needed.",
          none⟩) :=
  restock_no_payload_readonly [item0] 1 item0 true rfl

/-- C4: a PUT whose merged payload fails `deserialize` validation returns
400 and leaves the stored table exactly as it was, whatever the commit
flag (the commit is never attempted). -/
theorem put_validation_failure_atomic (s : Store) (iid : Int)
    (data : InvPayload) (item : Inventory) (e : DataValidationError)
    (ok : Bool) (hf : findById s iid = some item)
    (hd : item.deserialize (mergedPayload item data) = .error e) :
    putRoute s iid data ok = (400, s) := by
  simp [putRoute, hf, hd]

/-- Witness for C4: on the concrete store, `PUT {quantity: -1}` merges to
a payload that fails validation, returns 400, and the store is
untouched. -/
theorem put_validation_failure_atomic_witness :
    item0.deserialize (mergedPayload item0 { quantity := some (-1) })
      = .error ⟨"Quantity cannot be negative"⟩ ∧
    putRoute [item0] 1 { quantity := some (-1) } true = (400, [item0]) :=
  ⟨rfl, put_validation_failure_atomic [item0] 1 { quantity := some (-1) }
    item0 ⟨"Quantity cannot be negative"⟩ true rfl rfl⟩

/-- C5 counterexample: filter selection follows Python *truthiness*, not
key presence.  In a request whose only supplied filter is
`product_id = 0`, the claim as stated demands the product_id filter be
applied (result `[]`, since `item0.product_id = 7`), but the handler
falls through `if product_id:` on the falsy `0` and returns the whole
table. -/
theorem list_priority_cex :
    listRoute [item0] { product_id := some 0 } [] = .ok [item0] ∧
    find_by_product_id [item0] 0 = [] ∧
    ([item0] : List Inventory) ≠ [] := by
  refine ⟨rfl, rfl, by decide⟩

/-- C5 amended: with no unrecognized query key, exactly one filter is
applied, chosen by the `if/elif` priority name > product_id > condition >
below_restock_level among the supplied filters *whose values are truthy*
(a supplied empty name, zero product_id, or false flag is skipped like an
absent one); when no truthy filter remains, all items are returned; and
any request with an unrecognized key is rejected before filtering,
whatever the other arguments. -/
theorem list_filter_truthy_priority (s : Store) (args : ListArgs) :
    (∀ k ks, ∃ msg, listRoute s args (k :: ks) = .error msg) ∧
    (∀ nm, args.name = some nm → nm ≠ "" →
      listRoute s args [] = .ok (find_by_name s nm)) ∧
    (∀ pid, truthyStr args.name = false → args.product_id = some pid →
      pid ≠ 0 → listRoute s args [] = .ok (find_by_product_id s pid)) ∧
    (∀ c, truthyStr args.name = false → truthyInt args.product_id = false →
      args.condition = some c → c ≠ "" →
      listRoute s args [] = .ok (find_by_condition s c)) ∧
    (truthyStr args.name = false → truthyInt args.product_id = false →
      truthyStr args.condition = false →
      args.below_restock_level = some true →
      listRoute s args [] = .ok (find_below_restock_level s)) ∧
    (truthyStr args.name = false → truthyInt args.product_id = false →
      truthyStr args.condition = false →
      truthyBool args.below_restock_level = false →
      listRoute s args [] = .ok (Inventory.all s)) := by
  refine ⟨?_, ?_, ?_, ?_, ?_, ?_⟩
  · intro k ks
    exact ⟨_, rfl⟩
  · intro nm hn hne
    have ht : truthyStr (some nm) = true := by simp [truthyStr, hne]
    simp [listRoute, hn, ht]
  · intro pid hn hp hne
    have ht : truthyInt (some pid) = true := by simp [truthyInt, hne]
    simp [listRoute, hn, hp, ht]
  · intro c hn hp hc hne
    have ht : truthyStr (some c) = true := by simp [truthyStr, hne]
    simp [listRoute, hn, hp, hc, ht]
  · intro hn hp hc hb
    simp [listRoute, hn, hp, hc, hb, truthyBool]
  · intro hn hp hc hb
    simp [listRoute, hn, hp, hc, hb]

/-- Witness for the amended C5: a request supplying only
`condition = "Used"` (name/product_id absent) filters by condition on the
concrete store. -/
theorem list_filter_truthy_priority_witness :
    listRoute [item0] { condition := some "Used" } []
      = .ok (find_by_condition [item0] "Used") :=
  (list_filter_truthy_priority [item0] { condition := some "Used" }).2.2.2.1
    "Used" rfl rfl rfl (by decide)

/-- C6: delete is idempotent — deleting an id that is not in the table is
a 204 no-op for any commit outcome, and after a successful delete a
second delete of the same id returns 204 and leaves the table exactly as
the first call left it. -/
theorem delete_idempotent (s : Store) (iid : Int) (ok : Bool) :
    (findById s iid = none → deleteRoute s iid ok = (204, s)) ∧
    (deleteRoute s iid true).1 = 204 ∧
    deleteRoute (deleteRoute s iid true).2 iid ok
      = (204, (deleteRoute s iid true).2) := by
  refine ⟨?_, ?_, ?_⟩
  · intro h
    simp [deleteRoute, h]
  · cases hf : findById s iid with
    | none => simp [deleteRoute, hf]
    | some item => simp [deleteRoute, hf, Inventory.delete]
  · cases hf : findById s iid with
    | none => simp [deleteRoute, hf]
    | some item =>
      have hid := findById_id hf
      have e1 : deleteRoute s iid true
          = (204, s.filter fun j => !decide (j.id = some iid)) := by
        simp [deleteRoute, hf, Inventory.delete, hid]
      rw [e1]
      simp [deleteRoute, findById_filter_id s iid]

/-- Witness for C6: deleting the absent id 5 from the empty table is a
204 no-op, and a second delete of id 1 after the first is a 204 no-op on
the once-deleted table. -/
theorem delete_idempotent_witness :
    deleteRoute [] 5 true = (204, []) ∧
    deleteRoute (deleteRoute [item0] 1 true).2 1 true
      = (204, (deleteRoute [item0] 1 true).2) :=
  ⟨(delete_idempotent [] 5 true).1 rfl, (delete_idempotent [item0] 1 true).2.2⟩

/-- C7 counterexample: for the delete write, a failed commit does NOT
surface as an error — the persistence layer raises (`Inventory.delete`
returns the rollback error), yet the route handler's broad `except`
reports 204 success. -/
theorem delete_commit_failure_cex :
    findById [item0] 1 = some item0 ∧
    Inventory.delete [item0] item0 false = .error ⟨"Error deleting record"⟩ ∧
    deleteRoute [item0] 1 false = (204, [item0]) :=
  ⟨rfl, rfl, rfl⟩

/-- C7 amended: on a failed commit every write rolls back (the table is
returned unchanged, so no partially-mutated record is visible), and
create and update surface the failure as a 400 validation error — for
update, whenever a commit is actually attempted, i.e. the id is found and
the merged payload passes validation — but delete reports 204 success
regardless. -/
theorem write_commit_failure_behavior (s : Store) (data : InvPayload)
    (iid : Int) :
    ((createRoute s data false).1 = 400 ∧ (createRoute s data false).2.1 = s) ∧
    ((putRoute s iid data false).2 = s ∧
      ∀ item item', findById s iid = some item →
        item.deserialize (mergedPayload item data) = .ok item' →
        putRoute s iid data false = (400, s)) ∧
    deleteRoute s iid false = (204, s) := by
  refine ⟨?_, ⟨?_, ?_⟩, ?_⟩
  · cases hd : Inventory.new.deserialize data with
    | error e => simp [createRoute, hd]
    | ok item => simp [createRoute, hd, Inventory.create]
  · cases hf : findById s iid with
    | none => simp [putRoute, hf]
    | some item =>
      cases hd : item.deserialize (mergedPayload item data) with
      | error e => simp [putRoute, hf, hd]
      | ok item' => simp [putRoute, hf, hd, Inventory.update]
  · intro item item' hf hd
    simp [putRoute, hf, hd, Inventory.update]
  · cases hf : findById s iid with
    | none => simp [deleteRoute, hf]
    | some item => simp [deleteRoute, hf, Inventory.delete]

/-- Witness for the amended C7: on the concrete store, a failed-commit
PUT of quantity 5 to the found item 1 (whose merged payload validates)
returns 400 with the table unchanged, and a failed-commit delete of the
same id reports 204 with the table unchanged. -/
theorem write_commit_failure_behavior_witness :
    putRoute [item0] 1 { quantity := some 5 } false = (400, [item0]) ∧
    deleteRoute [item0] 1 false = (204, [item0]) :=
  ⟨(write_commit_failure_behavior [item0] { quantity := some 5 } 1).2.1.2
      item0 { item0 with quantity := 5 } rfl rfl,
    (write_commit_failure_behavior [item0] { quantity := some 5 } 1).2.2⟩

/-- The input dictionary corresponding to a full serialized item: all
five data keys present.  `deserialize` reads no `id` key, so the `id`
field of the dictionary has no counterpart in the payload. -/
def InvDict.toPayload (x : InvDict) : InvPayload :=
  { name := some x.name
    product_id := some x.product_id
    quantity := some x.quantity
    condition := some x.condition
    restock_level := some x.restock_level }

/-- A serialized item satisfying the documented invariants: name 1-63
characters, condition in the fixed enumeration, non-negative quantity and
restock level. -/
def InvDict.validDict (x : InvDict) : Prop :=
  1 ≤ x.name.length ∧ x.name.length ≤ 63 ∧ x.condition ∈ validConditions ∧
    0 ≤ x.quantity ∧ 0 ≤ x.restock_level

instance : DecidablePred InvDict.validDict := fun x =>
  inferInstanceAs (Decidable (1 ≤ x.name.length ∧ x.name.length ≤ 63 ∧
    x.condition ∈ validConditions ∧ 0 ≤ x.quantity ∧ 0 ≤ x.restock_level))

/-- A concrete invariant-satisfying serialized item with a non-null id. -/
def xdict : InvDict :=
  { id := some 1, name := "A", product_id := 1, quantity := 0
    condition := "New", restock_level := 10 }

/-- C8 counterexample: `deserialize` never reads the `id` key, so the
round trip through a fresh record maps `xdict` (id 1) to the same
dictionary with `id = null`, which differs from `xdict` — the round trip
is not the identity on the `id` field. -/
theorem roundtrip_id_cex :
    xdict.validDict ∧
    (Inventory.new.deserialize xdict.toPayload).map Inventory.serialize
      = .ok { xdict with id := none } ∧
    ({ xdict with id := none } : InvDict) ≠ xdict := by
  refine ⟨by decide, rfl, by decide⟩

/-- C8 amended: for every dictionary `x` satisfying the invariants,
deserializing into any record `self` succeeds and serializing back
returns `x` with its `id` replaced by `self.id` — equality on the five
data fields always, and on `id` exactly when `x`'s id equals the target
record's prior id (`null` for a fresh record). -/
theorem roundtrip_modulo_id (self : Inventory) (x : InvDict)
    (h : x.validDict) :
    (self.deserialize x.toPayload).map Inventory.serialize
      = .ok { x with id := self.id } := by
  obtain ⟨h1, h2, h3, h4, h5⟩ := h
  have hlen : ¬(x.name.length > 63) := by omega
  have hq : ¬(x.quantity < 0) := by omega
  have hr : ¬(x.restock_level < 0) := by omega
  simp [Inventory.deserialize, InvDict.toPayload, hlen, hq, hr, h3,
    Inventory.serialize, Except.map]

/-- Witness for the amended C8: deserializing `xdict` into a fresh record
and serializing back yields `xdict` with `id = null`. -/
theorem roundtrip_modulo_id_witness :
    (Inventory.new.deserialize xdict.toPayload).map Inventory.serialize
      = .ok { xdict with id := Inventory.new.id } :=
  roundtrip_modulo_id Inventory.new xdict (by decide)

/-- C9 counterexample: `deserialize` enforces no minimum name length —
the empty name passes every check and is accepted (the only name check in
models.py line 100 is the 63-character cap). -/
theorem empty_name_accepted_cex :
    Inventory.new.deserialize
        { name := some "", product_id := some 1, condition := some "New" }
      = .ok { id := none, name := "", product_id := 1, quantity := 0
              condition := "New", restock_level := 10 } := rfl

/-- C9 amended: whenever the three required keys are present, a name
longer than 63 characters is rejected with the name-length validation
error, and any accepted payload has a name of at most 63 characters —
but no minimum length is enforced (the empty name is accepted, see the
counterexample). -/
theorem name_length_validation (self : Inventory) (data : InvPayload)
    (nm : String) (pid : Int) (c : String) (hn : data.name = some nm)
    (hp : data.product_id = some pid) (hc : data.condition = some c) :
    (nm.length > 63 →
      self.deserialize data = .error ⟨"Name exceeds 63-character limit"⟩) ∧
    (∀ y, self.deserialize data = .ok y → nm.length ≤ 63) := by
  constructor
  · intro hlen
    simp [Inventory.deserialize, hn, hp, hc, hlen]
  · intro y hok
    by_contra hgt
    push_neg at hgt
    have he : self.deserialize data
        = .error ⟨"Name exceeds 63-character limit"⟩ := by
      simp [Inventory.deserialize, hn, hp, hc, hgt]
    rw [he] at hok
    exact Except.noConfusion hok

/-- A 64-character name. -/
def longName : String := String.mk (List.replicate 64 'a')

/-- Witness for the amended C9: the 64-character name is rejected with
the name-length error. -/
theorem name_length_validation_witness :
    Inventory.new.deserialize
        { name := some longName, product_id := some 1
          condition := some "New" }
      = .error ⟨"Name exceeds 63-character limit"⟩ :=
  (name_length_validation Inventory.new
    { name := some longName, product_id := some 1, condition := some "New" }
    longName 1 "New" rfl rfl rfl).1 (by decide)

/-- The rational 5.9 with explicit numerator and denominator, so that the
truncation computes by kernel reduction. -/
def q59 : Rat := ⟨59, 10, by norm_num, by norm_num⟩

theorem q59_eq : q59 = (5.9 : Rat) := by
  show Rat.mk' 59 10 _ _ = (5.9 : Rat)
  rw [Rat.mk'_eq_divInt, Rat.divInt_eq_div]
  norm_num

/-- C10: the restock action coerces the payload value with Python
`int()`: the 400 invalid-quantity response is returned exactly when the
coercion fails (`pyInt v = none`), otherwise the coerced integer is added
to the stock; and concretely the numeric string `"5"` coerces to 5, the
float 5.9 truncates to 5, and booleans coerce to 1 and 0. -/
theorem restock_int_coercion (s : Store) (item : Inventory) (v : JVal) :
    (pyInt v = none → ∀ ok, processQuantityUpdate s item v ok
      = (⟨400, "Quantity must be an integer", none⟩, s)) ∧
    (∀ n, pyInt v = some n →
      processQuantityUpdate s item v true
        = (⟨200, "Stock level updated", some (item.quantity + n)⟩,
            replaceById s { item with quantity := item.quantity + n })) ∧
    pyInt (.jstr "5") = some 5 ∧
    pyInt (.jnum (5.9 : Rat)) = some 5 ∧
    pyInt (.jbool true) = some 1 ∧
    pyInt (.jbool false) = some 0 := by
  refine ⟨?_, ?_, by decide, ?_, rfl, rfl⟩
  · intro h ok
    simp [processQuantityUpdate, h]
  · intro n h
    simp [processQuantityUpdate, h, Inventory.update]
  · rw [← q59_eq]
    decide

/-- Witness for C10: on the concrete item, the string payload `"5"` adds
5 and the non-numeric string `"ten"` yields the 400 response with the
store unchanged. -/
theorem restock_int_coercion_witness :
    processQuantityUpdate [item0] item0 (.jstr "5") true
      = (⟨200, "Stock level updated", some (item0.quantity + 5)⟩,
          replaceById [item0] { item0 with quantity := item0.quantity + 5 }) ∧
    processQuantityUpdate [item0] item0 (.jstr "ten") true
      = (⟨400, "Quantity must be an integer", none⟩, [item0]) :=
  ⟨(restock_int_coercion [item0] item0 (.jstr "5")).2.1 5 (by decide),
    (restock_int_coercion [item0] item0 (.jstr "ten")).1 (by decide) true⟩
